import Mathlib

/-!
# Verification of the LittleLink page-interaction scripts

A shallow embedding of the three client-side controllers of this
repository — the page-title manager, the theme image synchronizer and the
theme-selector popover — together with proofs of the specified properties.

The DOM state relevant to the scripts is modelled explicitly:

* the root element's `classList` is a `List Token` (a token is a `List Char`);
  its `className` string is the space-join of the tokens;
* `String.prototype.includes` is the substring (list-infix) test;
* `classList.remove` deletes every occurrence of a token,
  `classList.add` appends a token when absent (DOM token-set semantics);
* `localStorage` is an `Option Token` holding the single key used by the code;
* image elements are `Option ImgElement` (absent elements are `none`).
-/

namespace LittleLink

/-- A DOM class token, as a list of characters. -/
abbrev Token := List Char

/-- `CONFIG.THEMES` / theme marker class `theme-light`. -/
def THEME_LIGHT : Token := "theme-light".toList

/-- `CONFIG.THEMES.DARK`: theme marker class `theme-dark`. -/
def THEME_DARK : Token := "theme-dark".toList

/-- `CONFIG.THEMES.AUTO`: theme marker class `theme-auto`. -/
def THEME_AUTO : Token := "theme-auto".toList

/-- The `active` class used by the popover panel, icons and options. -/
def ACTIVE_CLASS : Token := "active".toList

/-- The space separating class tokens inside `className`. -/
def SPACE : Char := ' '

/-- The `className` string of an element whose `classList` holds the given
tokens: the tokens joined by single spaces. -/
def joinClasses : List Token → List Char
  | [] => []
  | [c] => c
  | c :: cs => c ++ SPACE :: joinClasses cs

/-- JS `String.prototype.includes`: `pat` occurs in `s` as a contiguous
substring. -/
def strIncludes (s pat : List Char) : Bool := decide (pat <:+: s)

/-- `Utils.isDarkMode` (part_000, lines 41–48): reads `html.className` and
returns `className.includes('theme-dark') || (className.includes('theme-auto')
&& matchMedia('(prefers-color-scheme: dark)').matches)`.  The system
dark-scheme query result is the argument `sys`. -/
def isDarkMode (classes : List Token) (sys : Bool) : Bool :=
  strIncludes (joinClasses classes) THEME_DARK ||
    (strIncludes (joinClasses classes) THEME_AUTO && sys)

/-! ## Theme image synchronizer (part_000) -/

/-- An entry of `CONFIG.IMAGES`: the dark and light asset paths of one
logical image role. -/
structure ImagePair where
  dark : List Char
  light : List Char
deriving DecidableEq

/-- `CONFIG.IMAGES.signature`. -/
def signatureImages : ImagePair :=
  { dark := "./images/signature.gif".toList,
    light := "./images/signature_alt.gif".toList }

/-- `CONFIG.IMAGES.rateIcon`. -/
def rateIconImages : ImagePair :=
  { dark := "./images/rate1_w.png".toList,
    light := "./images/rate1.png".toList }

/-- An image element; only its `src` attribute matters to the scripts. -/
structure ImgElement where
  src : List Char
deriving DecidableEq

/-- `Utils.updateImageSrc` (part_000, lines 55–60): `if (!element) return;`
then `element.src = isDark ? imagePaths.dark : imagePaths.light`.  A missing
element is `none` and is returned unchanged. -/
def updateImageSrc (element : Option ImgElement) (imagePaths : ImagePair)
    (classes : List Token) (sys : Bool) : Option ImgElement :=
  match element with
  | none => none
  | some el =>
      some { el with
               src := if isDarkMode classes sys then imagePaths.dark
                      else imagePaths.light }

/-- The two theme-dependent image elements looked up by id
(`signature`, `rate-icon`); each may be absent from the document. -/
structure DocImages where
  signature : Option ImgElement
  rateIcon : Option ImgElement
deriving DecidableEq

/-- `ThemeManager.updateImagesForTheme` (part_000, lines 119–125): looks up
both elements and updates each via `Utils.updateImageSrc`. -/
def updateImagesForTheme (doc : DocImages) (classes : List Token)
    (sys : Bool) : DocImages :=
  { signature := updateImageSrc doc.signature signatureImages classes sys,
    rateIcon := updateImageSrc doc.rateIcon rateIconImages classes sys }

/-- The state of `ThemeManager`: the document's images, the root element's
class list, the system dark-scheme signal, and the mutation observer
(`some ()` while connected, `none` after `destroy`). -/
structure ThemeManagerState where
  doc : DocImages
  rootClasses : List Token
  sys : Bool
  observer : Option Unit
deriving DecidableEq

/-- `ThemeManager.destroy` (part_000, lines 159–164): `if (this.observer)`
disconnect it and set it to `null`; otherwise nothing happens. -/
def destroy (s : ThemeManagerState) : ThemeManagerState :=
  match s.observer with
  | some _ => { s with observer := none }
  | none => s

/-- The `attributeName` the observer callback filters on. -/
def classAttr : List Char := "class".toList

/-- A DOM mutation record, reduced to the two fields the callback reads:
whether `mutation.type === 'attributes'` and the `attributeName`. -/
structure MutationRecord where
  isAttributes : Bool
  attributeName : List Char
deriving DecidableEq

/-- The body of the `MutationObserver` callback (part_000, lines 142–148):
for each record whose type is `attributes` and whose attribute is `class`,
run `updateImagesForTheme`. -/
def observerCallback (muts : List MutationRecord)
    (s : ThemeManagerState) : ThemeManagerState :=
  muts.foldl
    (fun acc m =>
      if m.isAttributes && decide (m.attributeName = classAttr) then
        { acc with doc := updateImagesForTheme acc.doc acc.rootClasses acc.sys }
      else acc)
    s

/-- Delivery of a batch of mutation records: the callback runs only while
the observer is connected; a disconnected observer receives nothing. -/
def notifyMutations (muts : List MutationRecord)
    (s : ThemeManagerState) : ThemeManagerState :=
  match s.observer with
  | some _ => observerCallback muts s
  | none => s

/-! ## Page title manager (part_000 `PageTitleManager`, and src/script.js) -/

/-- `CONFIG.MESSAGES.BLUR_TITLE`: the fixed away message. -/
def BLUR_TITLE : String := "Ooops, ainda estou aqui!"

/-- The window events the title manager listens to. -/
inductive WindowEvent where
  | blur : WindowEvent
  | focus : WindowEvent
deriving DecidableEq

/-- `PageTitleManager.handleBlur` / `handleFocus` (part_000, lines 88–97):
blur sets the fixed away message, focus restores `originalTitle` (captured
once at startup). -/
def handleTitleEvent (originalTitle : String) (_title : String)
    (e : WindowEvent) : String :=
  match e with
  | .blur => BLUR_TITLE
  | .focus => originalTitle

/-- Running a sequence of blur/focus events against the document title. -/
def runTitleEvents (originalTitle : String) (title : String)
    (events : List WindowEvent) : String :=
  events.foldl (handleTitleEvent originalTitle) title

/-! ## Theme selector popover (part_001 `ThemeToggleModal`) -/

/-- A `.theme-option` element: its `data-theme` value and its class list. -/
structure OptionElement where
  theme : Token
  classes : List Token
deriving DecidableEq

/-- The state of `ThemeToggleModal` together with the DOM and storage it
touches: the `isOpen` flag and `currentTheme`, the root element's class
list, the options panel's class list, the three icon elements' class lists,
the option elements, the persisted `littlelink-theme` key, the system
dark-scheme signal, and which option (by index) holds keyboard focus. -/
structure ModalState where
  isOpen : Bool
  currentTheme : Token
  rootClasses : List Token
  panelClasses : List Token
  sunIcon : List Token
  moonIcon : List Token
  autoIcon : List Token
  options : List OptionElement
  storage : Option Token
  sys : Bool
  focused : Option Nat
deriving DecidableEq

/-- `classList.remove(tok)`: deletes every occurrence of the token. -/
def classListRemove (tok : Token) (l : List Token) : List Token :=
  l.filter (fun c => decide (c ≠ tok))

/-- `classList.add(tok)`: appends the token unless already present. -/
def classListAdd (tok : Token) (l : List Token) : List Token :=
  if tok ∈ l then l else l ++ [tok]

/-- `classList.remove('theme-light', 'theme-dark', 'theme-auto')`
(part_001, line 126). -/
def removeAllThemeClasses (l : List Token) : List Token :=
  classListRemove THEME_AUTO (classListRemove THEME_DARK
    (classListRemove THEME_LIGHT l))

/-- `ThemeToggleModal.updateButtonIcon` (part_001, lines 188–211): removes
`active` from all three icons, then adds it to the icon selected by
`currentTheme` (for `theme-auto`, by the system preference); an
unrecognised theme selects no icon. -/
def updateButtonIcon (s : ModalState) : ModalState :=
  let sun := classListRemove ACTIVE_CLASS s.sunIcon
  let moon := classListRemove ACTIVE_CLASS s.moonIcon
  let auto := classListRemove ACTIVE_CLASS s.autoIcon
  let icons : List Token × List Token × List Token :=
    if s.currentTheme = THEME_LIGHT then
      (classListAdd ACTIVE_CLASS sun, moon, auto)
    else if s.currentTheme = THEME_DARK then
      (sun, classListAdd ACTIVE_CLASS moon, auto)
    else if s.currentTheme = THEME_AUTO then
      if s.sys then (sun, classListAdd ACTIVE_CLASS moon, auto)
      else (classListAdd ACTIVE_CLASS sun, moon, auto)
    else (sun, moon, auto)
  { s with sunIcon := icons.1, moonIcon := icons.2.1, autoIcon := icons.2.2 }

/-- The per-option body of `updateActiveOption`: remove `active`, then add
it back when the option's `data-theme` equals the current theme. -/
def updateOption (currentTheme : Token) (o : OptionElement) : OptionElement :=
  let cleared := classListRemove ACTIVE_CLASS o.classes
  if o.theme = currentTheme then
    { o with classes := classListAdd ACTIVE_CLASS cleared }
  else { o with classes := cleared }

/-- `ThemeToggleModal.updateActiveOption` (part_001, lines 216–223): every
option loses `active`; the option whose `data-theme` equals `currentTheme`
gains it. -/
def updateActiveOption (s : ModalState) : ModalState :=
  { s with options := s.options.map (updateOption s.currentTheme) }

/-- `ThemeToggleModal.updateUI` (part_001, lines 177–183). -/
def updateUI (s : ModalState) : ModalState :=
  updateActiveOption (updateButtonIcon s)

/-- `ThemeToggleModal.setTheme` (part_001, lines 122–139): removes the three
marker classes from the root, adds the new one, updates `currentTheme`,
persists the value, and refreshes the UI. -/
def setTheme (theme : Token) (s : ModalState) : ModalState :=
  updateUI { s with
    rootClasses := classListAdd theme (removeAllThemeClasses s.rootClasses),
    currentTheme := theme,
    storage := some theme }

/-- The three valid persisted values checked by `loadSavedTheme`. -/
def validThemes : List Token := [THEME_LIGHT, THEME_DARK, THEME_AUTO]

/-- `ThemeToggleModal.loadSavedTheme` (part_001, lines 111–116): reads the
persisted value and applies it via `setTheme` when it is one of the three
valid values; otherwise does nothing. -/
def loadSavedTheme (s : ModalState) : ModalState :=
  match s.storage with
  | some saved => if saved ∈ validThemes then setTheme saved s else s
  | none => s

/-- `ThemeToggleModal.detectCurrentTheme` (part_001, lines 95–106): seeds
`currentTheme` from the root's class list, checking `theme-dark` first,
then `theme-light`, defaulting to `theme-auto`. -/
def detectCurrentTheme (s : ModalState) : ModalState :=
  { s with currentTheme :=
      if THEME_DARK ∈ s.rootClasses then THEME_DARK
      else if THEME_LIGHT ∈ s.rootClasses then THEME_LIGHT
      else THEME_AUTO }

/-- `ThemeToggleModal.openPanel` (part_001, lines 155–164): adds `active`
to the panel, sets `isOpen`, and focuses the first option when one
exists. -/
def openPanel (s : ModalState) : ModalState :=
  { s with panelClasses := classListAdd ACTIVE_CLASS s.panelClasses,
           isOpen := true,
           focused := match s.options with
                      | [] => s.focused
                      | _ :: _ => some 0 }

/-- `ThemeToggleModal.closePanel` (part_001, lines 169–172). -/
def closePanel (s : ModalState) : ModalState :=
  { s with panelClasses := classListRemove ACTIVE_CLASS s.panelClasses,
           isOpen := false }

/-- `ThemeToggleModal.togglePanel` (part_001, lines 144–150). -/
def togglePanel (s : ModalState) : ModalState :=
  if s.isOpen then closePanel s else openPanel s

/-- Which of the three button icons carry the `active` class. -/
def activeIcons (s : ModalState) : Bool × Bool × Bool :=
  (decide (ACTIVE_CLASS ∈ s.sunIcon), decide (ACTIVE_CLASS ∈ s.moonIcon),
    decide (ACTIVE_CLASS ∈ s.autoIcon))

/-- The themes of the popover options that carry the `active` class. -/
def activeOptionThemes (s : ModalState) : List Token :=
  (s.options.filter (fun o => decide (ACTIVE_CLASS ∈ o.classes))).map
    (fun o => o.theme)

/-- `ThemeToggleModal.getEffectiveTheme` (part_001, lines 228–234). -/
def getEffectiveTheme (s : ModalState) : Token :=
  if s.currentTheme = THEME_AUTO then
    if s.sys then THEME_DARK else THEME_LIGHT
  else s.currentTheme

/-- The events handled by `bindEvents` (part_001, lines 51–90): a click on
the toggle button, a click on an option carrying a theme value, a document
click (with the fact whether the target lies inside the modal), a keydown
(with the fact whether the key is Escape), and a system theme change. -/
inductive ModalEvent where
  | toggleClick : ModalEvent
  | optionClick : Token → ModalEvent
  | documentClick : Bool → ModalEvent
  | keydown : Bool → ModalEvent
  | systemThemeChange : Bool → ModalEvent
deriving DecidableEq

/-- The event handlers of `bindEvents`: toggle click toggles the panel; an
option click applies `setTheme` then `closePanel`; a document click outside
the modal closes the panel; Escape closes the panel when open; a system
theme change refreshes the UI when the current theme is `theme-auto`. -/
def handleEvent (e : ModalEvent) (s : ModalState) : ModalState :=
  match e with
  | .toggleClick => togglePanel s
  | .optionClick t => closePanel (setTheme t s)
  | .documentClick insideModal => if insideModal then s else closePanel s
  | .keydown escape => if escape && s.isOpen then closePanel s else s
  | .systemThemeChange b =>
      let s' := { s with sys := b }
      if s'.currentTheme = THEME_AUTO then updateUI s' else s'

/-- `ThemeToggleModal.init` (part_001, lines 25–31) on a freshly loaded
page: `isOpen` starts `false` and `currentTheme` starts `'theme-auto'`
(lines 19–20); then `detectCurrentTheme`, `updateUI` and `loadSavedTheme`
run in that order.  (`bindElements`/`bindEvents` only register listeners.) -/
def initModal (rootClasses panelClasses sun moon auto : List Token)
    (options : List OptionElement) (storage : Option Token)
    (sys : Bool) : ModalState :=
  loadSavedTheme (updateUI (detectCurrentTheme
    { isOpen := false, currentTheme := THEME_AUTO,
      rootClasses := rootClasses, panelClasses := panelClasses,
      sunIcon := sun, moonIcon := moon, autoIcon := auto,
      options := options, storage := storage, sys := sys,
      focused := none }))

/-! ## Concrete states used by the witnesses -/

/-- A sample `.theme-option` element. -/
def sampleOption : OptionElement := { theme := THEME_LIGHT, classes := [] }

/-- A sample popover state: auto preference, auto marker on the root,
system signal dark. -/
def sampleState : ModalState :=
  { isOpen := false, currentTheme := THEME_AUTO,
    rootClasses := [THEME_AUTO], panelClasses := [],
    sunIcon := [], moonIcon := [], autoIcon := [],
    options := [sampleOption], storage := none, sys := true,
    focused := none }

/-- A sample open popover state. -/
def sampleOpenState : ModalState :=
  { sampleState with isOpen := true, panelClasses := [ACTIVE_CLASS] }

/-- A concrete synchronizer state whose observer is already stopped. -/
def stoppedManager : ThemeManagerState :=
  { doc := { signature := none, rateIcon := none },
    rootClasses := [], sys := false, observer := none }

/-- A concrete synchronizer state with a connected (live) observer. -/
def liveManager : ThemeManagerState :=
  { doc := { signature := some { src := [] }, rateIcon := none },
    rootClasses := [THEME_DARK], sys := false, observer := some () }

/-- A concrete class-attribute mutation record. -/
def classMutation : MutationRecord :=
  { isAttributes := true, attributeName := classAttr }

/-- The implicit invariant of the popover: the `isOpen` flag is true
exactly when the options panel carries the `active` class. -/
def panelInv (s : ModalState) : Prop :=
  s.isOpen = true ↔ ACTIVE_CLASS ∈ s.panelClasses

/-! ## Basic sanity checks of the embedding -/

example : isDarkMode [THEME_DARK] false = true := by decide
example : isDarkMode [THEME_AUTO] false = false := by decide
example : isDarkMode [THEME_AUTO] true = true := by decide
example : isDarkMode [THEME_LIGHT] true = false := by decide
example : getEffectiveTheme sampleState = THEME_DARK := by decide
example : (togglePanel sampleState).isOpen = true := by decide

/-! ## Substring structure of `className`

`Utils.isDarkMode` tests the marker classes by substring search on the
space-joined `className`.  The lemmas below relate that search to token
membership in the class list. -/

/-- A prefix of an append splits: it is a prefix of the left part, or it
covers the left part entirely and continues with a prefix of the right. -/
theorem prefix_append_split {α : Type} {t x y : List α} (h : t <+: x ++ y) :
    t <+: x ∨ ∃ p, t = x ++ p ∧ p <+: y := by
  obtain ⟨u, hu⟩ := h
  rcases List.append_eq_append_iff.mp hu with ⟨a, ha, _⟩ | ⟨c, hc, hd⟩
  · exact Or.inl ⟨a, ha.symm⟩
  · exact Or.inr ⟨c, hc, ⟨u, hd.symm⟩⟩

/-- An infix of an append is an infix of the left part, an infix of the
right part, or straddles the boundary: a nonempty suffix of the left
followed by a nonempty prefix of the right. -/
theorem infix_append_split {α : Type} {t x y : List α} (h : t <:+: x ++ y) :
    t <:+: x ∨ t <:+: y ∨
      ∃ t₁ t₂, t = t₁ ++ t₂ ∧ t₁ ≠ [] ∧ t₂ ≠ [] ∧ t₁ <:+ x ∧ t₂ <+: y := by
  induction x generalizing t with
  | nil => exact Or.inr (Or.inl (by simpa using h))
  | cons a x ih =>
    rw [List.cons_append, List.infix_cons_iff] at h
    rcases h with hpre | hinf
    · rcases List.prefix_cons_iff.mp hpre with rfl | ⟨t', rfl, ht'⟩
      · exact Or.inl List.nil_infix
      · rcases prefix_append_split ht' with h1 | ⟨p, rfl, hp⟩
        · exact Or.inl ( List.IsPrefix.isInfix
            ( List.cons_prefix_cons.mpr ⟨rfl, h1⟩))
        · by_cases hp0 : p = []
          · subst hp0
            exact Or.inl (by simp)
          · refine Or.inr (Or.inr ⟨a :: x, p, by simp, by simp, hp0,
              List.suffix_refl _, hp⟩)
    · rcases ih hinf with h1 | h2 | ⟨t₁, t₂, rfl, h₁ne, h₂ne, hsuf, hpre2⟩
      · exact Or.inl ( List.infix_cons h1)
      · exact Or.inr (Or.inl h2)
      · exact Or.inr (Or.inr ⟨t₁, t₂, rfl, h₁ne, h₂ne,
          List.IsSuffix.trans hsuf ( List.suffix_cons a x), hpre2⟩)

/-- A nonempty, space-free infix of a space-joined class list occurs inside
a single class token. -/
theorem spacefree_infix_join {t : List Char} {classes : List Token}
    (hsp : SPACE ∉ t) (hne : t ≠ []) (h : t <:+: joinClasses classes) :
    ∃ c ∈ classes, t <:+: c := by
  induction classes with
  | nil =>
    rw [show joinClasses [] = [] from rfl, List.infix_nil] at h
    exact absurd h hne
  | cons a cs ih =>
    cases cs with
    | nil => exact ⟨a, by simp, by simpa [joinClasses] using h⟩
    | cons b cs' =>
      rw [show joinClasses (a :: b :: cs') =
            a ++ SPACE :: joinClasses (b :: cs') from rfl] at h
      rcases infix_append_split h with h1 | h2 | ⟨t₁, t₂, rfl, _, h₂ne, _, hpre⟩
      · exact ⟨a, by simp, h1⟩
      · rcases List.infix_cons_iff.mp h2 with hpre | hinf
        · rcases List.prefix_cons_iff.mp hpre with rfl | ⟨t', rfl, _⟩
          · exact absurd rfl hne
          · exact absurd (by simp : SPACE ∈ SPACE :: t') hsp
        · obtain ⟨c, hc, hic⟩ := ih hinf
          exact ⟨c, List.mem_cons_of_mem a hc, hic⟩
      · rcases List.prefix_cons_iff.mp hpre with h0 | ⟨t', rfl, _⟩
        · exact absurd h0 h₂ne
        · exact absurd (show SPACE ∈ t₁ ++ SPACE :: t' by simp) hsp

/-- Conversely, every class token occurs in the joined `className`. -/
theorem infix_join_of_mem {c : Token} {classes : List Token}
    (h : c ∈ classes) : c <:+: joinClasses classes := by
  induction classes with
  | nil => simp at h
  | cons a cs ih =>
    cases cs with
    | nil =>
      rw [show c ∈ [a] ↔ c = a from by simp] at h
      subst h
      exact List.infix_refl c
    | cons b cs' =>
      rcases List.mem_cons.mp h with rfl | hm
      · exact List.IsPrefix.isInfix ( List.prefix_append c _)
      · refine List.IsInfix.trans (ih hm) ( List.IsSuffix.isInfix ?_)
        exact ⟨a ++ [SPACE], by simp [joinClasses]⟩

/-- Among the three marker tokens, only `theme-dark` itself contains
`theme-dark` as a substring. -/
theorem dark_infix_marker {c : Token}
    (hm : c = THEME_LIGHT ∨ c = THEME_DARK ∨ c = THEME_AUTO)
    (h : THEME_DARK <:+: c) : c = THEME_DARK := by
  rcases hm with rfl | rfl | rfl
  · exact absurd h (by decide)
  · rfl
  · exact absurd h (by decide)

/-- Among the three marker tokens, only `theme-auto` itself contains
`theme-auto` as a substring. -/
theorem auto_infix_marker {c : Token}
    (hm : c = THEME_LIGHT ∨ c = THEME_DARK ∨ c = THEME_AUTO)
    (h : THEME_AUTO <:+: c) : c = THEME_AUTO := by
  rcases hm with rfl | rfl | rfl
  · exact absurd h (by decide)
  · exact absurd h (by decide)
  · rfl

/-- On class lists made of whole theme marker tokens, the substring search
of `Utils.isDarkMode` agrees with token membership. -/
theorem isDarkMode_marker_iff {classes : List Token} {sys : Bool}
    (hm : ∀ c ∈ classes, c = THEME_LIGHT ∨ c = THEME_DARK ∨ c = THEME_AUTO) :
    (isDarkMode classes sys = true ↔
      (THEME_DARK ∈ classes ∨ (THEME_AUTO ∈ classes ∧ sys = true))) := by
  unfold isDarkMode strIncludes
  simp only [Bool.or_eq_true, Bool.and_eq_true, decide_eq_true_eq]
  constructor
  · rintro (hd | ⟨ha, hs⟩)
    · obtain ⟨c, hc, hic⟩ := spacefree_infix_join (by decide) (by decide) hd
      exact Or.inl ((dark_infix_marker (hm c hc) hic) ▸ hc)
    · obtain ⟨c, hc, hic⟩ := spacefree_infix_join (by decide) (by decide) ha
      exact Or.inr ⟨(auto_infix_marker (hm c hc) hic) ▸ hc, hs⟩
  · rintro (hd | ⟨ha, hs⟩)
    · exact Or.inl ( infix_join_of_mem hd)
    · exact Or.inr ⟨ infix_join_of_mem ha, hs⟩

/-! ## Basic facts about the classList operations and the popover state -/

theorem mem_classListRemove {tok q : Token} {l : List Token} :
    q ∈ classListRemove tok l ↔ q ∈ l ∧ q ≠ tok := by
  unfold classListRemove
  simp [List.mem_filter]

theorem mem_classListAdd {tok q : Token} {l : List Token} :
    q ∈ classListAdd tok l ↔ q ∈ l ∨ q = tok := by
  unfold classListAdd
  split
  · constructor
    · exact Or.inl
    · rintro (h | rfl)
      · exact h
      · assumption
  · simp

theorem mem_removeAllThemeClasses {q : Token} {l : List Token} :
    q ∈ removeAllThemeClasses l ↔
      q ∈ l ∧ q ≠ THEME_LIGHT ∧ q ≠ THEME_DARK ∧ q ≠ THEME_AUTO := by
  unfold removeAllThemeClasses
  simp only [mem_classListRemove]
  tauto

theorem updateUI_projections (s : ModalState) :
    (updateUI s).isOpen = s.isOpen ∧
    (updateUI s).currentTheme = s.currentTheme ∧
    (updateUI s).rootClasses = s.rootClasses ∧
    (updateUI s).panelClasses = s.panelClasses ∧
    (updateUI s).storage = s.storage ∧
    (updateUI s).sys = s.sys ∧
    (updateUI s).focused = s.focused :=
  ⟨rfl, rfl, rfl, rfl, rfl, rfl, rfl⟩

theorem setTheme_projections (t : Token) (s : ModalState) :
    (setTheme t s).currentTheme = t ∧
    (setTheme t s).storage = some t ∧
    (setTheme t s).rootClasses =
      classListAdd t (removeAllThemeClasses s.rootClasses) ∧
    (setTheme t s).isOpen = s.isOpen ∧
    (setTheme t s).panelClasses = s.panelClasses :=
  ⟨rfl, rfl, rfl, rfl, rfl⟩

/-! ## C1: effective theme as a function of preference and system signal -/

/-- C1, counterexample to the claim as stated.  The claim reads
`Utils.isDarkMode` as true *iff* the root element carries the dark marker
class, or carries the auto marker class and the system query matches.  The
code instead substring-searches `className`: with the single class
`theme-darkness` (and the system signal off), `isDarkMode` returns `true`
although the root carries neither the `theme-dark` nor the `theme-auto`
marker class. -/
theorem isDarkMode_claim_counterexample :
    isDarkMode ["theme-darkness".toList] false = true ∧
    ¬ (THEME_DARK ∈ (["theme-darkness".toList] : List Token) ∨
        (THEME_AUTO ∈ (["theme-darkness".toList] : List Token) ∧
          false = true)) := by
  decide

/-- C1 (amended): `Utils.isDarkMode` substring-searches the `className`
string, so marker presence must be read at the `className` level; on root
states whose classes are whole theme marker tokens the claim holds as
written: `isDarkMode` is true iff the dark marker class is present, or the
auto marker class is present and the system signal is true; with the auto
marker present and the dark marker absent the result equals the system
signal; and `getEffectiveTheme` resolves preference `theme-auto` to
`theme-dark` exactly when the system signal is true. -/
theorem effective_theme_pure_function (classes : List Token) (sys : Bool)
    (s : ModalState)
    (hm : ∀ c ∈ classes, c = THEME_LIGHT ∨ c = THEME_DARK ∨ c = THEME_AUTO) :
    (isDarkMode classes sys = true ↔
       (THEME_DARK ∈ classes ∨ (THEME_AUTO ∈ classes ∧ sys = true))) ∧
    (THEME_AUTO ∈ classes → THEME_DARK ∉ classes →
       isDarkMode classes sys = sys) ∧
    (s.currentTheme = THEME_AUTO →
       (getEffectiveTheme s = THEME_DARK ↔ s.sys = true)) := by
  refine ⟨isDarkMode_marker_iff hm, ?_, ?_⟩
  · intro ha hd
    cases sys with
    | true => exact (isDarkMode_marker_iff hm).mpr (Or.inr ⟨ha, rfl⟩)
    | false =>
      cases hb : isDarkMode classes false with
      | false => rfl
      | true =>
        rcases (isDarkMode_marker_iff hm).mp hb with h1 | ⟨_, h2⟩
        · exact absurd h1 hd
        · exact absurd h2 (by decide)
  · intro hauto
    unfold getEffectiveTheme
    rw [if_pos hauto]
    cases hs : s.sys with
    | true => simp
    | false =>
      simp only [Bool.false_eq_true, if_false]
      exact ⟨fun h => absurd h (by decide), fun h => absurd h (by decide)⟩

/-- C1, witness: the amended theorem applied at the concrete root state
`[theme-auto]` with the system signal on and at `sampleState`. -/
theorem effective_theme_pure_function_witness :
    (isDarkMode [THEME_AUTO] true = true ↔
       (THEME_DARK ∈ ([THEME_AUTO] : List Token) ∨
         (THEME_AUTO ∈ ([THEME_AUTO] : List Token) ∧ true = true))) ∧
    (THEME_AUTO ∈ ([THEME_AUTO] : List Token) →
       THEME_DARK ∉ ([THEME_AUTO] : List Token) →
       isDarkMode [THEME_AUTO] true = true) ∧
    (sampleState.currentTheme = THEME_AUTO →
       (getEffectiveTheme sampleState = THEME_DARK ↔
         sampleState.sys = true)) :=
  effective_theme_pure_function [THEME_AUTO] true sampleState (by decide)

/-! ## C2: setTheme leaves exactly one marker class -/

/-- C2: after `setTheme p` with `p` one of the three theme marker classes,
a marker class is on the root element iff it is `p`, whatever marker
classes the root carried before, and `p` occurs exactly once. -/
theorem setTheme_exactly_one_marker (p : Token) (s : ModalState)
    (hp : p = THEME_LIGHT ∨ p = THEME_DARK ∨ p = THEME_AUTO) :
    (THEME_LIGHT ∈ (setTheme p s).rootClasses ↔ p = THEME_LIGHT) ∧
    (THEME_DARK ∈ (setTheme p s).rootClasses ↔ p = THEME_DARK) ∧
    (THEME_AUTO ∈ (setTheme p s).rootClasses ↔ p = THEME_AUTO) ∧
    List.count p (setTheme p s).rootClasses = 1 := by
  have hroot : (setTheme p s).rootClasses
      = classListAdd p (removeAllThemeClasses s.rootClasses) := rfl
  have hnot : p ∉ removeAllThemeClasses s.rootClasses := by
    rw [mem_removeAllThemeClasses]
    rintro ⟨_, hL, hD, hA⟩
    rcases hp with rfl | rfl | rfl
    · exact hL rfl
    · exact hD rfl
    · exact hA rfl
  have hadd : classListAdd p (removeAllThemeClasses s.rootClasses)
      = removeAllThemeClasses s.rootClasses ++ [p] := by
    unfold classListAdd
    rw [if_neg hnot]
  refine ⟨?_, ?_, ?_, ?_⟩
  · rw [hroot, mem_classListAdd, mem_removeAllThemeClasses]
    constructor
    · rintro (⟨_, hL, _, _⟩ | h)
      · exact absurd rfl hL
      · exact h.symm
    · rintro rfl
      exact Or.inr rfl
  · rw [hroot, mem_classListAdd, mem_removeAllThemeClasses]
    constructor
    · rintro (⟨_, _, hD, _⟩ | h)
      · exact absurd rfl hD
      · exact h.symm
    · rintro rfl
      exact Or.inr rfl
  · rw [hroot, mem_classListAdd, mem_removeAllThemeClasses]
    constructor
    · rintro (⟨_, _, _, hA⟩ | h)
      · exact absurd rfl hA
      · exact h.symm
    · rintro rfl
      exact Or.inr rfl
  · rw [hroot, hadd, List.count_append, List.count_eq_zero.mpr hnot]
    simp

/-- C2, witness: `setTheme theme-dark` on `sampleState` (whose root starts
with the auto marker). -/
theorem setTheme_exactly_one_marker_witness :
    (THEME_LIGHT ∈ (setTheme THEME_DARK sampleState).rootClasses ↔
       THEME_DARK = THEME_LIGHT) ∧
    (THEME_DARK ∈ (setTheme THEME_DARK sampleState).rootClasses ↔
       THEME_DARK = THEME_DARK) ∧
    (THEME_AUTO ∈ (setTheme THEME_DARK sampleState).rootClasses ↔
       THEME_DARK = THEME_AUTO) ∧
    List.count THEME_DARK (setTheme THEME_DARK sampleState).rootClasses = 1 :=
  setTheme_exactly_one_marker THEME_DARK sampleState (by decide)

/-! ## C3: round-trip persistence of the preference -/

/-- When the persisted value is one of the three valid themes,
`loadSavedTheme` applies it via `setTheme`. -/
theorem loadSavedTheme_eq_of_storage {s : ModalState} {p : Token}
    (hst : s.storage = some p) (hp : p ∈ validThemes) :
    loadSavedTheme s = setTheme p s := by
  unfold loadSavedTheme
  rw [hst]
  show (if p ∈ validThemes then setTheme p s else s) = setTheme p s
  rw [if_pos hp]

/-- On a fresh load whose storage holds a valid theme `p`, the init
sequence (`detectCurrentTheme`, `updateUI`, `loadSavedTheme`) ends with
`currentTheme = p`, overriding whatever `detectCurrentTheme` seeded. -/
theorem initModal_currentTheme_of_valid_storage
    (rc pc sun moon auto : List Token) (opts : List OptionElement)
    (p : Token) (sys : Bool) (hp : p ∈ validThemes) :
    (initModal rc pc sun moon auto opts (some p) sys).currentTheme = p := by
  unfold initModal
  rw [loadSavedTheme_eq_of_storage rfl hp]
  rfl

/-- C3: `setTheme p` persists `p`; a fresh load with that same persisted
storage (arbitrary fresh DOM state) runs `loadSavedTheme` and restores
`currentTheme = p`. -/
theorem setTheme_round_trip (p : Token) (s : ModalState)
    (rc pc sun moon auto : List Token) (opts : List OptionElement)
    (sys : Bool) (hp : p ∈ validThemes) :
    (setTheme p s).storage = some p ∧
    (initModal rc pc sun moon auto opts ((setTheme p s).storage)
        sys).currentTheme = p := by
  refine ⟨rfl, ?_⟩
  rw [show (setTheme p s).storage = some p from rfl]
  exact initModal_currentTheme_of_valid_storage rc pc sun moon auto opts
    p sys hp

/-- C3, witness: `theme-light` round-trips through storage even when the
fresh DOM carries the dark marker (so `detectCurrentTheme` seeds dark). -/
theorem setTheme_round_trip_witness :
    (setTheme THEME_LIGHT sampleState).storage = some THEME_LIGHT ∧
    (initModal [THEME_DARK] [] [] [] [] [sampleOption]
        ((setTheme THEME_LIGHT sampleState).storage) false).currentTheme
      = THEME_LIGHT :=
  setTheme_round_trip THEME_LIGHT sampleState [THEME_DARK] [] [] [] []
    [sampleOption] false (by decide)

/-! ## C4: the popover state machine -/

/-- `loadSavedTheme` never touches the panel: `isOpen` and the panel's
class list are preserved. -/
theorem loadSavedTheme_panel (s : ModalState) :
    (loadSavedTheme s).isOpen = s.isOpen ∧
    (loadSavedTheme s).panelClasses = s.panelClasses := by
  unfold loadSavedTheme
  split
  · split
    · exact ⟨rfl, rfl⟩
    · exact ⟨rfl, rfl⟩
  · exact ⟨rfl, rfl⟩

/-- C4: the popover starts closed after init; the toggle button opens it
from closed and closes it from open; from open, Escape closes it and a
click outside the modal closes it; selecting an option closes it and sets
the current preference to that option's theme. -/
theorem popover_state_machine
    (rc pc sun moon auto : List Token) (opts : List OptionElement)
    (storage : Option Token) (sys : Bool)
    (sClosed sOpen sAny : ModalState) (t : Token)
    (hC : sClosed.isOpen = false) (hO : sOpen.isOpen = true) :
    (initModal rc pc sun moon auto opts storage sys).isOpen = false ∧
    (handleEvent .toggleClick sClosed).isOpen = true ∧
    (handleEvent .toggleClick sOpen).isOpen = false ∧
    (handleEvent (.keydown true) sOpen).isOpen = false ∧
    (handleEvent (.documentClick false) sOpen).isOpen = false ∧
    (handleEvent (.optionClick t) sAny).isOpen = false ∧
    (handleEvent (.optionClick t) sAny).currentTheme = t := by
  refine ⟨?_, ?_, ?_, ?_, rfl, rfl, rfl⟩
  · unfold initModal
    rw [(loadSavedTheme_panel _).1]
    rfl
  · show (togglePanel sClosed).isOpen = true
    unfold togglePanel
    rw [hC]
    rfl
  · show (togglePanel sOpen).isOpen = false
    unfold togglePanel
    rw [hO]
    rfl
  · show (if (true && sOpen.isOpen) = true then closePanel sOpen
          else sOpen).isOpen = false
    rw [hO]
    rfl

/-- C4, witness: the machine run at the sample closed and open states with
the dark option. -/
theorem popover_state_machine_witness :
    (initModal [] [] [] [] [] [sampleOption] none false).isOpen = false ∧
    (handleEvent .toggleClick sampleState).isOpen = true ∧
    (handleEvent .toggleClick sampleOpenState).isOpen = false ∧
    (handleEvent (.keydown true) sampleOpenState).isOpen = false ∧
    (handleEvent (.documentClick false) sampleOpenState).isOpen = false ∧
    (handleEvent (.optionClick THEME_DARK) sampleState).isOpen = false ∧
    (handleEvent (.optionClick THEME_DARK) sampleState).currentTheme
      = THEME_DARK :=
  popover_state_machine [] [] [] [] [] [sampleOption] none false
    sampleState sampleOpenState sampleState THEME_DARK rfl rfl

/-! ## C9: isOpen reflects the panel's active class -/

theorem panelInv_openPanel (s : ModalState) : panelInv (openPanel s) := by
  unfold panelInv
  constructor
  · intro _
    exact mem_classListAdd.mpr (Or.inr rfl)
  · intro _
    rfl

theorem panelInv_closePanel (s : ModalState) : panelInv (closePanel s) := by
  unfold panelInv
  constructor
  · intro h
    exact absurd h Bool.false_ne_true
  · intro h
    exact absurd rfl (mem_classListRemove.mp h).2

/-- C9: the invariant `isOpen ↔ active ∈ panelClasses` holds after init
(from a panel without the class) and is preserved by `openPanel`,
`closePanel`, `togglePanel` and every bound event handler. -/
theorem popover_open_invariant
    (rc pc sun moon auto : List Token) (opts : List OptionElement)
    (storage : Option Token) (sys : Bool)
    (s : ModalState) (e : ModalEvent)
    (hpc : ACTIVE_CLASS ∉ pc) (hs : panelInv s) :
    panelInv (initModal rc pc sun moon auto opts storage sys) ∧
    panelInv (openPanel s) ∧
    panelInv (closePanel s) ∧
    panelInv (togglePanel s) ∧
    panelInv (handleEvent e s) := by
  have htoggle : ∀ s' : ModalState, panelInv (togglePanel s') := by
    intro s'
    unfold togglePanel
    cases s'.isOpen
    · exact panelInv_openPanel s'
    · exact panelInv_closePanel s'
  refine ⟨?_, panelInv_openPanel s, panelInv_closePanel s, htoggle s, ?_⟩
  · unfold panelInv initModal
    rw [(loadSavedTheme_panel _).1, (loadSavedTheme_panel _).2]
    show false = true ↔ ACTIVE_CLASS ∈ pc
    simp [hpc]
  · cases e with
    | toggleClick => exact htoggle s
    | optionClick t => exact panelInv_closePanel (setTheme t s)
    | documentClick insideModal =>
      cases insideModal
      · exact panelInv_closePanel s
      · exact hs
    | keydown escape =>
      show panelInv (if (escape && s.isOpen) = true then closePanel s else s)
      cases hcond : escape && s.isOpen
      · simpa using hs
      · simpa using panelInv_closePanel s
    | systemThemeChange b =>
      show panelInv (if ({ s with sys := b } : ModalState).currentTheme
          = THEME_AUTO then updateUI { s with sys := b }
          else { s with sys := b })
      split
      · exact hs
      · exact hs

/-- C9, witness: the invariant theorem at the sample closed state and a
toggle click. -/
theorem popover_open_invariant_witness :
    panelInv (initModal [] [] [] [] [] [sampleOption] none false) ∧
    panelInv (openPanel sampleState) ∧
    panelInv (closePanel sampleState) ∧
    panelInv (togglePanel sampleState) ∧
    panelInv (handleEvent .toggleClick sampleState) :=
  popover_open_invariant [] [] [] [] [] [sampleOption] none false
    sampleState .toggleClick (by decide) (by unfold panelInv; decide)

/-! ## C10: precedence in detectCurrentTheme -/

/-- C10: `detectCurrentTheme` checks `theme-dark` before `theme-light`, so
a root carrying both seeds `theme-dark`; it seeds `theme-auto` exactly when
neither `theme-dark` nor `theme-light` is present (whether or not
`theme-auto` itself is). -/
theorem detectCurrentTheme_precedence (s : ModalState)
    (hd : THEME_DARK ∈ s.rootClasses) (_hl : THEME_LIGHT ∈ s.rootClasses)
    (s' : ModalState) :
    (detectCurrentTheme s).currentTheme = THEME_DARK ∧
    ((detectCurrentTheme s').currentTheme = THEME_AUTO ↔
      (THEME_DARK ∉ s'.rootClasses ∧ THEME_LIGHT ∉ s'.rootClasses)) := by
  constructor
  · show (if THEME_DARK ∈ s.rootClasses then THEME_DARK
          else if THEME_LIGHT ∈ s.rootClasses then THEME_LIGHT
          else THEME_AUTO) = THEME_DARK
    rw [if_pos hd]
  · show (if THEME_DARK ∈ s'.rootClasses then THEME_DARK
          else if THEME_LIGHT ∈ s'.rootClasses then THEME_LIGHT
          else THEME_AUTO) = THEME_AUTO ↔ _
    by_cases hd' : THEME_DARK ∈ s'.rootClasses
    · simp [hd', show ¬ THEME_DARK = THEME_AUTO from by decide]
    · by_cases hl' : THEME_LIGHT ∈ s'.rootClasses
      · simp [hd', hl', show ¬ THEME_LIGHT = THEME_AUTO from by decide]
      · simp [hd', hl']

/-- C10, witness: a root carrying both markers (plus an unrelated class)
seeds dark; the auto case checked on the sample state. -/
theorem detectCurrentTheme_precedence_witness :
    (detectCurrentTheme { sampleState with
        rootClasses := [THEME_DARK, THEME_LIGHT] }).currentTheme
      = THEME_DARK ∧
    ((detectCurrentTheme sampleState).currentTheme = THEME_AUTO ↔
      (THEME_DARK ∉ sampleState.rootClasses ∧
        THEME_LIGHT ∉ sampleState.rootClasses)) :=
  detectCurrentTheme_precedence
    { sampleState with rootClasses := [THEME_DARK, THEME_LIGHT] }
    (by decide) (by decide) sampleState

/-! ## C5: image updates follow the effective theme, absent elements no-op -/

/-- C5: `updateImagesForTheme` sets each present image element's `src` to
the pair's dark path when `Utils.isDarkMode` is true and to the light path
otherwise, and silently leaves an absent (`none`) element absent — the
update is total, no error case exists. -/
theorem updateImagesForTheme_spec (docN docS : DocImages)
    (classes : List Token) (sys : Bool) (eS eR : ImgElement)
    (h1 : docN.signature = none) (h2 : docN.rateIcon = none)
    (h3 : docS.signature = some eS) (h4 : docS.rateIcon = some eR) :
    (updateImagesForTheme docN classes sys).signature = none ∧
    (updateImagesForTheme docN classes sys).rateIcon = none ∧
    (updateImagesForTheme docS classes sys).signature =
      some { eS with src := if isDarkMode classes sys = true
                            then signatureImages.dark
                            else signatureImages.light } ∧
    (updateImagesForTheme docS classes sys).rateIcon =
      some { eR with src := if isDarkMode classes sys = true
                            then rateIconImages.dark
                            else rateIconImages.light } := by
  refine ⟨?_, ?_, ?_, ?_⟩
  · show updateImageSrc docN.signature signatureImages classes sys = none
    rw [h1]
    rfl
  · show updateImageSrc docN.rateIcon rateIconImages classes sys = none
    rw [h2]
    rfl
  · show updateImageSrc docS.signature signatureImages classes sys = some _
    rw [h3]
    rfl
  · show updateImageSrc docS.rateIcon rateIconImages classes sys = some _
    rw [h4]
    rfl

/-- C5, witness: a document missing both elements and a document with both
elements, evaluated with the dark marker on the root. -/
theorem updateImagesForTheme_spec_witness :
    (updateImagesForTheme { signature := none, rateIcon := none }
        [THEME_DARK] false).signature = none ∧
    (updateImagesForTheme { signature := none, rateIcon := none }
        [THEME_DARK] false).rateIcon = none ∧
    (updateImagesForTheme
        { signature := some { src := [] }, rateIcon := some { src := [] } }
        [THEME_DARK] false).signature =
      some { src := if isDarkMode [THEME_DARK] false = true
                    then signatureImages.dark else signatureImages.light } ∧
    (updateImagesForTheme
        { signature := some { src := [] }, rateIcon := some { src := [] } }
        [THEME_DARK] false).rateIcon =
      some { src := if isDarkMode [THEME_DARK] false = true
                    then rateIconImages.dark else rateIconImages.light } :=
  updateImagesForTheme_spec { signature := none, rateIcon := none }
    { signature := some { src := [] }, rateIcon := some { src := [] } }
    [THEME_DARK] false { src := [] } { src := [] } rfl rfl rfl rfl

/-! ## C6: the title controller restores the captured original on focus -/

/-- C6: starting from the title captured at initialization, any event
sequence ending in a blur leaves the fixed away message, and any event
sequence ending in a focus restores exactly the captured original title. -/
theorem title_restored_on_focus (orig : String) (evs : List WindowEvent) :
    runTitleEvents orig orig (evs ++ [WindowEvent.focus]) = orig ∧
    runTitleEvents orig orig (evs ++ [WindowEvent.blur]) = BLUR_TITLE := by
  unfold runTitleEvents
  constructor
  · rw [ List.foldl_append]
    rfl
  · rw [ List.foldl_append]
    rfl

/-! ## C8: teardown of the synchronizer is idempotent and safe -/

/-- `destroy` always results in a disconnected (null) observer and changes
nothing else. -/
theorem destroy_eq (s : ThemeManagerState) :
    destroy s = { s with observer := none } := by
  unfold destroy
  split
  · rfl
  · rename_i heq
    cases s
    simp only at heq
    rw [heq]

/-- C8: from any state — live observer included — `destroy` twice equals
`destroy` once; after `destroy` the observer is null, so a delivered
mutation batch no longer re-resolves images; and calling `destroy` on a
state whose observer is already null is a no-op. -/
theorem destroy_idempotent (s sStopped : ThemeManagerState)
    (muts : List MutationRecord) (h : sStopped.observer = none) :
    destroy (destroy s) = destroy s ∧
    (destroy s).observer = none ∧
    notifyMutations muts (destroy s) = destroy s ∧
    destroy sStopped = sStopped := by
  refine ⟨?_, ?_, ?_, ?_⟩
  · rw [destroy_eq (destroy s), destroy_eq s]
  · rw [destroy_eq]
  · rw [destroy_eq]
    rfl
  · rw [destroy_eq]
    cases sStopped
    simp only at h
    rw [h]

/-- C8, witness: the teardown facts on a concrete live-observer state with
a class-mutation batch, plus the no-op on the already-stopped state. -/
theorem destroy_idempotent_witness :
    destroy (destroy liveManager) = destroy liveManager ∧
    (destroy liveManager).observer = none ∧
    notifyMutations [classMutation] (destroy liveManager)
      = destroy liveManager ∧
    destroy stoppedManager = stoppedManager :=
  destroy_idempotent liveManager stoppedManager [classMutation] rfl

/-! ## C7: updateUI is idempotent -/

theorem classListRemove_idem (tok : Token) (l : List Token) :
    classListRemove tok (classListRemove tok l) = classListRemove tok l := by
  unfold classListRemove
  induction l with
  | nil => rfl
  | cons a l ih =>
    by_cases h : a = tok
    · simp [h, ih]
    · simp [h, ih]

theorem classListRemove_classListAdd (tok : Token) (l : List Token) :
    classListRemove tok (classListAdd tok l) = classListRemove tok l := by
  unfold classListAdd
  split
  · rfl
  · unfold classListRemove
    rw [ List.filter_append]
    simp

/-- Removing a token after removing and re-adding it is the plain
removal. -/
theorem remove_add_remove (tok : Token) (l : List Token) :
    classListRemove tok (classListAdd tok (classListRemove tok l))
      = classListRemove tok l := by
  rw [classListRemove_classListAdd, classListRemove_idem]

theorem updateOption_idem (ct : Token) (o : OptionElement) :
    updateOption ct (updateOption ct o) = updateOption ct o := by
  unfold updateOption
  by_cases h : o.theme = ct
  · simp [h, remove_add_remove]
  · simp [h, classListRemove_idem]

theorem map_updateOption_idem (ct : Token) (l : List OptionElement) :
    (l.map (updateOption ct)).map (updateOption ct)
      = l.map (updateOption ct) := by
  induction l with
  | nil => rfl
  | cons o l ih => simp [updateOption_idem, ih]

theorem dark_ne_light : ¬ THEME_DARK = THEME_LIGHT := by decide

theorem auto_ne_light : ¬ THEME_AUTO = THEME_LIGHT := by decide

theorem auto_ne_dark : ¬ THEME_AUTO = THEME_DARK := by decide

theorem active_mem_add (l : List Token) :
    ACTIVE_CLASS ∈ classListAdd ACTIVE_CLASS l :=
  mem_classListAdd.mpr (Or.inr rfl)

theorem active_not_mem_remove (l : List Token) :
    ACTIVE_CLASS ∉ classListRemove ACTIVE_CLASS l :=
  fun h => (mem_classListRemove.mp h).2 rfl

/-- C7: `updateUI` is idempotent — running it twice with no intervening
state change gives the very same state, hence the same active-icon and
active-option sets; and the active icon is exactly the one selected by
`currentTheme` (sun for light, moon for dark, and for auto moon or sun by
the live system signal). -/
theorem updateUI_idempotent (s sL sD sA : ModalState)
    (hL : sL.currentTheme = THEME_LIGHT)
    (hD : sD.currentTheme = THEME_DARK)
    (hA : sA.currentTheme = THEME_AUTO) :
    updateUI (updateUI s) = updateUI s ∧
    activeIcons (updateUI (updateUI s)) = activeIcons (updateUI s) ∧
    activeOptionThemes (updateUI (updateUI s))
      = activeOptionThemes (updateUI s) ∧
    activeIcons (updateUI sL) = (true, false, false) ∧
    activeIcons (updateUI sD) = (false, true, false) ∧
    activeIcons (updateUI sA)
      = (if sA.sys then (false, true, false) else (true, false, false)) := by
  have hidem : ∀ x : ModalState, updateUI (updateUI x) = updateUI x := by
    intro x
    unfold updateUI updateActiveOption updateButtonIcon
    by_cases hxL : x.currentTheme = THEME_LIGHT
    · simp [hxL, remove_add_remove, classListRemove_idem,
        map_updateOption_idem, updateOption_idem, dark_ne_light,
        auto_ne_light, auto_ne_dark]
    · by_cases hxD : x.currentTheme = THEME_DARK
      · simp [hxL, hxD, remove_add_remove, classListRemove_idem,
          map_updateOption_idem, updateOption_idem, dark_ne_light,
          auto_ne_light, auto_ne_dark]
      · by_cases hxA : x.currentTheme = THEME_AUTO
        · cases hsys : x.sys
          · simp [hxL, hxD, hxA, hsys, remove_add_remove,
              classListRemove_idem, map_updateOption_idem,
              updateOption_idem, dark_ne_light, auto_ne_light, auto_ne_dark]
          · simp [hxL, hxD, hxA, hsys, remove_add_remove,
              classListRemove_idem, map_updateOption_idem,
              updateOption_idem, dark_ne_light, auto_ne_light, auto_ne_dark]
        · simp [hxL, hxD, hxA, remove_add_remove, classListRemove_idem,
            map_updateOption_idem, updateOption_idem]
  refine ⟨hidem s, by rw [hidem s], by rw [hidem s], ?_, ?_, ?_⟩
  · show activeIcons (updateButtonIcon sL) = (true, false, false)
    unfold updateButtonIcon activeIcons
    simp [hL, active_mem_add, active_not_mem_remove]
  · show activeIcons (updateButtonIcon sD) = (false, true, false)
    unfold updateButtonIcon activeIcons
    simp [hD, active_mem_add, active_not_mem_remove, dark_ne_light]
  · show activeIcons (updateButtonIcon sA)
      = (if sA.sys then (false, true, false) else (true, false, false))
    unfold updateButtonIcon activeIcons
    cases hsys : sA.sys
    · simp [hA, hsys, active_mem_add, active_not_mem_remove,
        auto_ne_light, auto_ne_dark]
    · simp [hA, hsys, active_mem_add, active_not_mem_remove,
        auto_ne_light, auto_ne_dark]

/-- C7, witness: idempotence and the selected icons at the sample state and
its light/dark/auto variants. -/
theorem updateUI_idempotent_witness :
    updateUI (updateUI sampleState) = updateUI sampleState ∧
    activeIcons (updateUI (updateUI sampleState))
      = activeIcons (updateUI sampleState) ∧
    activeOptionThemes (updateUI (updateUI sampleState))
      = activeOptionThemes (updateUI sampleState) ∧
    activeIcons (updateUI { sampleState with currentTheme := THEME_LIGHT })
      = (true, false, false) ∧
    activeIcons (updateUI { sampleState with currentTheme := THEME_DARK })
      = (false, true, false) ∧
    activeIcons (updateUI sampleState)
      = (if sampleState.sys then (false, true, false)
         else (true, false, false)) :=
  updateUI_idempotent sampleState
    { sampleState with currentTheme := THEME_LIGHT }
    { sampleState with currentTheme := THEME_DARK }
    sampleState rfl rfl rfl

end LittleLink
